import Mathlib

/-!
Verification of the ext4_rs core against its specification.

The repository's `src/ext4/alloc.rs` and `src/ext4/dir.rs` are embedded
verbatim as executable Lean functions over an explicit filesystem state with
a write trace.  On-disk structure helpers whose source files are absent from
the snapshot (`bitmap.rs`, `super_block.rs`, `block_group.rs`, `crc.rs`,
`extent.rs`, and the current `dir_entry`/`inode` codec) are modelled from the
specification; each such definition says so in its doc comment.  The old
`ext4_defs/dir_entry.rs` and `ext4_defs/inode.rs` files present in the
snapshot are embedded directly.
-/

set_option maxRecDepth 100000

namespace Ext4RS

/-- Block size in bytes, `BLOCK_SIZE` in the source (`B = 4096`). -/
def BLOCK_SIZE : Nat := 4096

/-- Root inode number, `EXT4_ROOT_INO` in the source. -/
def EXT4_ROOT_INO : Nat := 2

/-- Initial CRC value `EXT4_CRC32_INIT = 0xFFFFFFFF`. -/
def EXT4_CRC32_INIT : Nat := 0xFFFFFFFF

/-- Reflected form of the Castagnoli polynomial 0x1EDC6F41. -/
def CRC32C_POLY : Nat := 0x82F63B78

/-- Modelled from the spec: one bit step of CRC32C (missing `crc.rs`):
shift right, and xor the reflected polynomial when the low bit was set. -/
def crcBit (crc : Nat) : Nat :=
  if crc % 2 = 1 then Nat.xor (crc / 2) CRC32C_POLY else crc / 2

/-- Modelled from the spec: one byte step of CRC32C (missing `crc.rs`). -/
def crcByte (crc byte : Nat) : Nat :=
  let c := Nat.xor crc (byte % 256)
  crcBit (crcBit (crcBit (crcBit (crcBit (crcBit (crcBit (crcBit c)))))))

/-- Modelled from the spec: `ext4_crc32c(crc, buf, len)` from the missing
`crc.rs`, with `len` always the full buffer length at every call site:
fold the byte step over the buffer starting from the running value. -/
def ext4_crc32c (crc : Nat) (buf : List Nat) : Nat :=
  buf.foldl crcByte crc

/-- Evaluation-friendly form of `ext4_crc32c`: the accumulator is matched on
(forcing it to a numeral) before each step, so that kernel reduction of a
long run keeps constant stack depth.  Proven equal to `ext4_crc32c`. -/
def crcForce : Nat → List Nat → Nat
  | c, [] => c
  | 0, b :: bs => crcForce (crcByte 0 b) bs
  | c+1, b :: bs => crcForce (crcByte (c+1) b) bs

/-! ## Little-endian byte helpers -/

/-- Little-endian encoding of a 16-bit value. -/
def le16 (x : Nat) : List Nat := [x % 256, x / 256 % 256]

/-- Little-endian encoding of a 32-bit value (`to_le_bytes` on `u32`). -/
def le32 (x : Nat) : List Nat :=
  [x % 256, x / 256 % 256, x / 65536 % 256, x / 16777216 % 256]

/-- Read a byte from a byte list, 0 when out of range. -/
def getByte (bytes : List Nat) (i : Nat) : Nat := bytes.getD i 0

/-- Read a little-endian 16-bit value at a byte offset. -/
def readU16 (bytes : List Nat) (off : Nat) : Nat :=
  getByte bytes off + 256 * getByte bytes (off + 1)

/-- Read a little-endian 32-bit value at a byte offset. -/
def readU32 (bytes : List Nat) (off : Nat) : Nat :=
  getByte bytes off + 256 * getByte bytes (off + 1) +
    65536 * getByte bytes (off + 2) + 16777216 * getByte bytes (off + 3)

/-- Overwrite bytes of `bytes` starting at `off` with `patch`, clipped to the
original length (the Rust code writes into a fixed-size block buffer). -/
def writeBytesAt : List Nat → Nat → List Nat → List Nat
  | [], _, _ => []
  | b :: bs, 0, [] => b :: bs
  | _ :: bs, 0, p :: ps => p :: writeBytesAt bs 0 ps
  | b :: bs, o+1, patch => b :: writeBytesAt bs o patch

/-! ## Bitmap operations

The `Bitmap` type lives in the missing `ext4_defs/bitmap.rs`; the spec (§3,
§4.2) fixes its semantics: a byte slice viewed as a little-endian bit array,
bit `k` is byte `k/8`, bit `k%8` (LSB-first), with `test`/`set`/`clear` and
an atomic `find_and_set_first_clear(start, end)` returning the lowest clear
bit index in `[start, end)` after setting it. -/

namespace Bitmap

/-- Modelled from the spec: test whether bit `k` of the byte slice is clear. -/
def is_bit_clear (bytes : List Nat) (k : Nat) : Bool :=
  ! Nat.testBit (getByte bytes (k / 8)) (k % 8)

/-- Modelled from the spec: set bit `k` of the byte slice. -/
def set_bit (bytes : List Nat) (k : Nat) : List Nat :=
  bytes.set (k / 8) (Nat.lor (getByte bytes (k / 8)) (2 ^ (k % 8)))

/-- Modelled from the spec: clear bit `k` of the byte slice. -/
def clear_bit (bytes : List Nat) (k : Nat) : List Nat :=
  bytes.set (k / 8)
    (getByte bytes (k / 8) -
      (if Nat.testBit (getByte bytes (k / 8)) (k % 8) then 2 ^ (k % 8) else 0))

/-- Modelled from the spec: scan helper, first clear bit among the next
`cnt` bit positions starting at `k`; only bits inside the slice exist, so
the scan stops at the end of the byte slice. -/
def findClearFrom (bytes : List Nat) : Nat → Nat → Option Nat
  | _, 0 => none
  | k, c+1 =>
    match bytes.get? (k / 8) with
    | none => none
    | some byteV =>
      if Nat.testBit byteV (k % 8) then findClearFrom bytes (k+1) c
      else some k

/-- Modelled from the spec: `find_and_set_first_clear_bit(start, end)` —
find the lowest clear bit in `[start, end)`, set it, and return its index
with the updated bytes; `none` when every bit in range is set. -/
def find_and_set_first_clear_bit (bytes : List Nat) (start endExcl : Nat) :
    Option (Nat × List Nat) :=
  match findClearFrom bytes start (endExcl - start) with
  | none => none
  | some k => some (k, set_bit bytes k)

end Bitmap

/-! ## On-disk summary structures and the filesystem state -/

/-- Error kinds surfaced by the core (`ErrCode` in the source).  `fatal`
stands for a source-level `unwrap`/panic, which never returns. -/
inductive ErrCode where
  | ENOSPC
  | ENOENT
  | EINVAL
  | fatal
  deriving DecidableEq, Repr

deriving instance DecidableEq for Except

/-- Superblock model.  Field names follow the source accessors; the missing
`super_block.rs` holds the codec, whose accessor semantics are fixed by the
spec (§3, §6). -/
structure SuperBlock where
  free_inodes_count : Nat
  free_blocks_count : Nat
  inodes_per_group : Nat
  blocks_per_group : Nat
  first_data_block : Nat
  block_group_count : Nat
  inode_size : Nat
  uuid : List Nat
  deriving DecidableEq, Repr

/-- Modelled from the spec: `sb.inode_count_in_group(bgid)` from the missing
`super_block.rs` — the inode capacity of a group, `inodes_per_group`. -/
def SuperBlock.inode_count_in_group (sb : SuperBlock) (_bgid : Nat) : Nat :=
  sb.inodes_per_group

/-- Modelled from the spec: `sb.decrease_free_inodes_count()` from the missing
`super_block.rs` — decrement the superblock's free-inodes counter (the
same helper is called by `alloc_inode`, whose contract requires a
decrement). -/
def SuperBlock.decrease_free_inodes_count (sb : SuperBlock) : SuperBlock :=
  { sb with free_inodes_count := sb.free_inodes_count - 1 }

/-- Block group descriptor model (missing `block_group.rs`); counter and
address fields per the spec (§3).  The descriptor's checksum fields are not
modelled: no claim mentions their values. -/
structure BlockGroupDesc where
  free_inodes_count : Nat
  free_blocks_count : Nat
  used_dirs_count : Nat
  itable_unused : Nat
  block_bitmap_block : Nat
  inode_bitmap_block : Nat
  deriving DecidableEq, Repr

/-- All-zero descriptor, the `getD` default for out-of-range group reads. -/
def BlockGroupDesc.empty : BlockGroupDesc :=
  ⟨0, 0, 0, 0, 0, 0⟩

/-- A leaf extent of the extent tree root: `(first logical, length, first
physical)` (spec §3). -/
structure Extent where
  first : Nat
  len : Nat
  pblock : Nat
  deriving DecidableEq, Repr

/-- In-memory inode model for the current-version `Inode` used by `alloc.rs`
and `dir.rs` (its file is missing; fields per the spec §3).  `ftype` is the
directory-entry file-type byte (2 = directory); the 60-byte inline area is
modelled as the list of root leaf extents. -/
structure Inode where
  ftype : Nat
  size : Nat
  block_count : Nat
  link_count : Nat
  generation : Nat
  extents : List Extent
  deriving DecidableEq, Repr

/-- Modelled from the spec: `inode.is_dir()` — the mode's file-type bits
denote a directory. -/
def Inode.is_dir (i : Inode) : Bool := i.ftype == 2

/-- `InodeRef`: an in-memory pair of inode id and inode (spec §3). -/
structure InodeRef where
  id : Nat
  inode : Inode
  deriving DecidableEq, Repr

/-- One block-device write issued by an operation, in issue order. -/
inductive WriteEvent where
  | block (id : Nat) (data : List Nat)
  | superblock (sb : SuperBlock)
  | groupDesc (bgid : Nat) (bg : BlockGroupDesc)
  | inode (id : Nat) (ino : Inode) (withCsum : Bool)
  deriving DecidableEq, Repr

/-- The kind of a write event, used to state ordering claims. -/
inductive WriteKind where
  | blk
  | sb
  | gd
  | ino
  deriving DecidableEq, Repr

/-- Kind projection of a write event. -/
def WriteEvent.kind : WriteEvent → WriteKind
  | .block _ _ => .blk
  | .superblock _ => .sb
  | .groupDesc _ _ => .gd
  | .inode _ _ _ => .ino

/-- Filesystem state: the superblock, the group descriptor table, the block
device contents (as an association list, latest write first), and the trace
of writes issued so far. -/
structure FsState where
  sb : SuperBlock
  groups : List BlockGroupDesc
  blocks : List (Nat × List Nat)
  writes : List WriteEvent
  deriving DecidableEq, Repr

/-- `self.read_super_block()`. -/
def read_super_block (s : FsState) : SuperBlock := s.sb

/-- `self.read_block_group(bgid)`. -/
def read_block_group (s : FsState) (bgid : Nat) : BlockGroupDesc :=
  s.groups.getD bgid BlockGroupDesc.empty

/-- `self.read_block(id)`: unwritten blocks read as zeros. -/
def read_block (s : FsState) (id : Nat) : List Nat :=
  (List.lookup id s.blocks).getD (List.replicate BLOCK_SIZE 0)

/-- `self.write_block(&block)`: store the data and record the write. -/
def write_block (s : FsState) (id : Nat) (data : List Nat) : FsState :=
  { s with blocks := (id, data) :: s.blocks,
           writes := s.writes ++ [WriteEvent.block id data] }

/-- `self.write_super_block(&sb)`. -/
def write_super_block (s : FsState) (sb : SuperBlock) : FsState :=
  { s with sb := sb, writes := s.writes ++ [WriteEvent.superblock sb] }

/-- `self.write_block_group_with_csum(&mut bg)` (descriptor checksum value
itself is not modelled). -/
def write_block_group_with_csum (s : FsState) (bgid : Nat) (bg : BlockGroupDesc) :
    FsState :=
  { s with groups := s.groups.set bgid bg,
           writes := s.writes ++ [WriteEvent.groupDesc bgid bg] }

/-- Modelled from the spec: `self.write_inode_with_csum(&mut inode_ref)` —
rewrite the inode's table slot, recomputing its checksum (§4.1, §4.6). -/
def write_inode_with_csum (s : FsState) (ref : InodeRef) : FsState :=
  { s with writes := s.writes ++ [WriteEvent.inode ref.id ref.inode true] }

/-- Modelled from the spec: `self.write_inode_without_csum(&inode_ref)` —
rewrite the inode's table slot without recomputing the checksum (§4.6). -/
def write_inode_without_csum (s : FsState) (ref : InodeRef) : FsState :=
  { s with writes := s.writes ++ [WriteEvent.inode ref.id ref.inode false] }

/-! ## Allocator (`src/ext4/alloc.rs`) -/

/-- `Ext4::alloc_block` (`alloc.rs` lines 103–144): find-and-set the first
clear bit of the owning group's block bitmap, write the bitmap block, the
superblock (free blocks − 1), then the group descriptor (free blocks − 1).
The returned id is the raw bit index found in the bitmap. -/
def alloc_block (s : FsState) (inode : InodeRef) : Except ErrCode Nat × FsState :=
  let sb := read_super_block s
  let bgid := (inode.id - 1) / sb.inodes_per_group
  let bg := read_block_group s bgid
  let bitmap_block_id := bg.block_bitmap_block
  let bitmap_block := read_block s bitmap_block_id
  match Bitmap.find_and_set_first_clear_bit bitmap_block 0 (8 * BLOCK_SIZE) with
  | none => (.error .ENOSPC, s)
  | some (fblock, bitmap1) =>
    let s1 := write_block s bitmap_block_id bitmap1
    let sb1 := { sb with free_blocks_count := sb.free_blocks_count - 1 }
    let s2 := write_super_block s1 sb1
    let bg1 := { bg with free_blocks_count := bg.free_blocks_count - 1 }
    let s3 := write_block_group_with_csum s2 bgid bg1
    (.ok fblock, s3)

/-- `Ext4::dealloc_block` (`alloc.rs` lines 147–185): fail `EINVAL` when the
bit is already clear (before any write); otherwise clear it and write the
bitmap block, the superblock (free blocks + 1), then the group descriptor
(free blocks + 1). -/
def dealloc_block (s : FsState) (inode : InodeRef) (pblock : Nat) :
    Except ErrCode Unit × FsState :=
  let sb := read_super_block s
  let bgid := (inode.id - 1) / sb.inodes_per_group
  let bg := read_block_group s bgid
  let bitmap_block_id := bg.block_bitmap_block
  let bitmap_block := read_block s bitmap_block_id
  if Bitmap.is_bit_clear bitmap_block pblock then (.error .EINVAL, s)
  else
    let bitmap1 := Bitmap.clear_bit bitmap_block pblock
    let s1 := write_block s bitmap_block_id bitmap1
    let sb1 := { sb with free_blocks_count := sb.free_blocks_count + 1 }
    let s2 := write_super_block s1 sb1
    let bg1 := { bg with free_blocks_count := bg.free_blocks_count + 1 }
    let s3 := write_block_group_with_csum s2 bgid bg1
    (.ok (), s3)

/-- Loop body of `Ext4::alloc_inode` (`alloc.rs` lines 192–251): the source's
`while bgid <= bg_count` loop, with `fuel` counting the remaining group
indices (the entry point passes `bg_count + 1`, matching the inclusive
bound).  A group whose descriptor reports no free inode is skipped; a failed
bitmap scan aborts with `ENOSPC` (the `?` on `ok_or`); on success the bitmap
block, the group descriptor, then the superblock are written. -/
def alloc_inode_go (s : FsState) (is_dir : Bool) (sb : SuperBlock) :
    Nat → Nat → Except ErrCode Nat × FsState
  | _, 0 => (.error .ENOSPC, s)
  | bgid, fuel+1 =>
    let bg := read_block_group s bgid
    if bg.free_inodes_count = 0 then
      alloc_inode_go s is_dir sb (bgid + 1) fuel
    else
      let bitmap_block_id := bg.inode_bitmap_block
      let bitmap_block := read_block s bitmap_block_id
      let inode_count := sb.inode_count_in_group bgid
      match Bitmap.find_and_set_first_clear_bit (bitmap_block.take (inode_count / 8))
          0 inode_count with
      | none => (.error .ENOSPC, s)
      | some (idx_in_bg, bitmap1) =>
        let s1 := write_block s bitmap_block_id
          (bitmap1 ++ bitmap_block.drop (inode_count / 8))
        let bg1 := { bg with free_inodes_count := bg.free_inodes_count - 1 }
        let bg2 := if is_dir
          then { bg1 with used_dirs_count := bg1.used_dirs_count + 1 }
          else bg1
        let unused := bg2.itable_unused
        let free := inode_count - unused
        let bg3 := if idx_in_bg ≥ free
          then { bg2 with itable_unused := inode_count - (idx_in_bg + 1) }
          else bg2
        let s2 := write_block_group_with_csum s1 bgid bg3
        let sb1 := sb.decrease_free_inodes_count
        let s3 := write_super_block s2 sb1
        (.ok (bgid * sb1.inodes_per_group + (idx_in_bg + 1)), s3)

/-- `Ext4::alloc_inode` (`alloc.rs` lines 188–255). -/
def alloc_inode (s : FsState) (is_dir : Bool) : Except ErrCode Nat × FsState :=
  let sb := read_super_block s
  alloc_inode_go s is_dir sb 0 (sb.block_group_count + 1)

/-- `Ext4::dealloc_inode` (`alloc.rs` lines 258–311): fail `EINVAL` when the
bit is already clear (before any write); otherwise clear it, write the
bitmap block, the group descriptor (free inodes + 1, used dirs − 1 iff the
inode is a directory, itable unused + 1), then the superblock — whose
free-inodes counter the source *decrements*. -/
def dealloc_inode (s : FsState) (inode_ref : InodeRef) :
    Except ErrCode Unit × FsState :=
  let sb := read_super_block s
  let bgid := (inode_ref.id - 1) / sb.inodes_per_group
  let idx_in_bg := (inode_ref.id - 1) % sb.inodes_per_group
  let bg := read_block_group s bgid
  let bitmap_block_id := bg.inode_bitmap_block
  let bitmap_block := read_block s bitmap_block_id
  let inode_count := sb.inode_count_in_group bgid
  let bitmap := bitmap_block.take (inode_count / 8)
  if Bitmap.is_bit_clear bitmap idx_in_bg then (.error .EINVAL, s)
  else
    let bitmap1 := Bitmap.clear_bit bitmap idx_in_bg
    let s1 := write_block s bitmap_block_id
      (bitmap1 ++ bitmap_block.drop (inode_count / 8))
    let bg1 := { bg with free_inodes_count := bg.free_inodes_count + 1 }
    let bg2 := if inode_ref.inode.is_dir
      then { bg1 with used_dirs_count := bg1.used_dirs_count - 1 }
      else bg1
    let bg3 := { bg2 with itable_unused := bg2.itable_unused + 1 }
    let s2 := write_block_group_with_csum s1 bgid bg3
    let sb1 := sb.decrease_free_inodes_count
    let s3 := write_super_block s2 sb1
    (.ok (), s3)

/-! ## Extent tree (modelled from the spec, §4.4)

`extent.rs` is missing from the snapshot.  The claims only exercise root
leaf extents (depth 0, at most 4 root entries); deeper trees and root
splitting are not modelled — a split that would be required surfaces as a
`fatal` error, which no claim's scenario reaches. -/

/-- Modelled from the spec: `extent_query` on a depth-0 root — find the
entry whose logical range `[first, first+len)` contains `lblock` and return
`physical + (lblock − first)`; `none` when unmapped. -/
def extent_query_list : List Extent → Nat → Option Nat
  | [], _ => none
  | e :: es, l =>
    if e.first ≤ l ∧ l < e.first + e.len then some (e.pblock + (l - e.first))
    else extent_query_list es l

/-- Modelled from the spec: `self.extent_query(inode, lblock)` over the
inode's inline root. -/
def extent_query (ino : Inode) (lblock : Nat) : Option Nat :=
  extent_query_list ino.extents lblock

/-- Modelled from the spec: insert a new leaf extent `(l, cnt, pb)` into the
sorted root entry list — extend the immediately preceding extent when it is
contiguous in both logical and physical space and stays within 32768,
otherwise insert at the sorted position. -/
def extent_insert : List Extent → Nat → Nat → Nat → List Extent
  | [], l, pb, cnt => [⟨l, cnt, pb⟩]
  | x :: xs, l, pb, cnt =>
    if l < x.first then ⟨l, cnt, pb⟩ :: x :: xs
    else
      match xs with
      | [] =>
        if x.first + x.len = l ∧ x.pblock + x.len = pb ∧ x.len + cnt ≤ 32768
        then [⟨x.first, x.len + cnt, x.pblock⟩]
        else [x, ⟨l, cnt, pb⟩]
      | y :: ys =>
        if l < y.first then
          if x.first + x.len = l ∧ x.pblock + x.len = pb ∧ x.len + cnt ≤ 32768
          then ⟨x.first, x.len + cnt, x.pblock⟩ :: y :: ys
          else x :: ⟨l, cnt, pb⟩ :: y :: ys
        else x :: extent_insert (y :: ys) l pb cnt

/-- Modelled from the spec: `self.extent_query_or_create(inode, lblock,
count)` — query, and on a miss allocate a physical block via `alloc_block`
and insert a new leaf extent into the root (whose capacity is 4); a root
that would need splitting is not modelled (`fatal`). -/
def extent_query_or_create (s : FsState) (ref : InodeRef) (lblock cnt : Nat) :
    Except ErrCode (Nat × InodeRef) × FsState :=
  match extent_query ref.inode lblock with
  | some pb => (.ok (pb, ref), s)
  | none =>
    match alloc_block s ref with
    | (.error e, s1) => (.error e, s1)
    | (.ok pb, s1) =>
      let exts := extent_insert ref.inode.extents lblock pb cnt
      if exts.length ≤ 4
      then (.ok (pb, { ref with inode := { ref.inode with extents := exts } }), s1)
      else (.error .fatal, s1)

/-- `Ext4::inode_append_block` (`alloc.rs` lines 90–100): use
`iblock = inode.block_count` as the new logical block, map it through
`extent_query_or_create(_, iblock, 1)`, increment `block_count`, and rewrite
the inode without recomputing its checksum.  Returns the pair of block ids,
the updated inode reference and the new state. -/
def inode_append_block (s : FsState) (ref : InodeRef) :
    Except ErrCode (Nat × Nat) × InodeRef × FsState :=
  let iblock := ref.inode.block_count
  match extent_query_or_create s ref iblock 1 with
  | (.error e, s1) => (.error e, ref, s1)
  | (.ok (fblock, ref1), s1) =>
    let ref2 := { ref1 with inode :=
      { ref1.inode with block_count := ref1.inode.block_count + 1 } }
    let s2 := write_inode_without_csum s1 ref2
    (.ok (iblock, fblock), ref2, s2)

/-! ## Directory entries (current codec, modelled from the spec §3)

The current-version `DirEntry`/`DirEntryTail` codec used by `dir.rs` is
missing from the snapshot; layout per the spec: 8-byte header (inode u32,
record length u16, name length u8, file-type u8) followed by the name
bytes; 12-byte tail `(0_u32, 12_u16, 0_u8, 0xDE_u8, csum_u32)`. -/

/-- Current-version directory entry. -/
structure DirEntry where
  inode : Nat
  rec_len : Nat
  name_len : Nat
  ftype : Nat
  name : List Nat
  deriving DecidableEq, Repr

/-- Modelled from the spec: 4-byte alignment of a name length. -/
def align4 (n : Nat) : Nat := 4 * ((n + 3) / 4)

/-- Modelled from the spec: `DirEntry::required_size(name_len)` — 8-byte
header plus the 4-byte-aligned name. -/
def DirEntry.required_size (name_len : Nat) : Nat := 8 + align4 name_len

/-- Modelled from the spec: `de.used_size()`. -/
def DirEntry.used_size (de : DirEntry) : Nat := DirEntry.required_size de.name_len

/-- Modelled from the spec: `de.unused()` — inode 0 is the tombstone mark. -/
def DirEntry.unused (de : DirEntry) : Bool := de.inode == 0

/-- Modelled from the spec: `de.set_unused()` — set `inode := 0`. -/
def DirEntry.set_unused (de : DirEntry) : DirEntry := { de with inode := 0 }

/-- Modelled from the spec: `de.compare_name(name)` — byte-for-byte equality
of the name. -/
def DirEntry.compare_name (de : DirEntry) (name : List Nat) : Bool :=
  de.name_len == name.length && de.name == name

/-- Modelled from the spec: `DirEntry::new(inode, rec_len, name, ftype)`. -/
def DirEntry.new (inode rec_len : Nat) (name : List Nat) (ftype : Nat) : DirEntry :=
  { inode := inode, rec_len := rec_len, name_len := name.length,
    ftype := ftype, name := name }

/-- Modelled from the spec: decode a directory entry at a byte offset
(`block.read_offset_as::<DirEntry>(offset)`). -/
def readDirEntry (bytes : List Nat) (off : Nat) : DirEntry :=
  { inode := readU32 bytes off
    rec_len := readU16 bytes (off + 4)
    name_len := getByte bytes (off + 6)
    ftype := getByte bytes (off + 7)
    name := (bytes.drop (off + 8)).take (getByte bytes (off + 6)) }

/-- Modelled from the spec: the byte encoding of a directory entry. -/
def encodeDirEntry (de : DirEntry) : List Nat :=
  le32 de.inode ++ le16 de.rec_len ++ [de.name_len % 256, de.ftype % 256] ++ de.name

/-- Current-version directory-block tail (12 bytes). -/
structure DirEntryTail where
  reserved_zero1 : Nat
  rec_len : Nat
  reserved_zero2 : Nat
  reserved_ft : Nat
  checksum : Nat
  deriving DecidableEq, Repr

/-- Modelled from the spec: `DirEntryTail::new()` — zeros, `rec_len = 12`,
magic byte `0xDE`, checksum 0. -/
def DirEntryTail.new : DirEntryTail := ⟨0, 12, 0, 0xDE, 0⟩

/-- Modelled from the spec: decode the tail at a byte offset. -/
def readDirEntryTail (bytes : List Nat) (off : Nat) : DirEntryTail :=
  ⟨readU32 bytes off, readU16 bytes (off + 4), getByte bytes (off + 6),
    getByte bytes (off + 7), readU32 bytes (off + 8)⟩

/-- Modelled from the spec: the byte encoding of the tail. -/
def encodeDirEntryTail (t : DirEntryTail) : List Nat :=
  le32 t.reserved_zero1 ++ le16 t.rec_len ++
    [t.reserved_zero2 % 256, t.reserved_ft % 256] ++ le32 t.checksum

/-- Modelled from the spec (§4.1, dir-block tail formula, the formulation
the spec adopts): CRC32C over `uuid ‖ dir_inode_id_le32 ‖ generation_le32 ‖
first B−12 block bytes (the tail checksum lies outside them) ‖ the tail's
bytes without its checksum field`. -/
def dir_tail_csum (uuid : List Nat) (dirId gen : Nat) (blk : List Nat)
    (t : DirEntryTail) : Nat :=
  ext4_crc32c
    (ext4_crc32c (ext4_crc32c (ext4_crc32c EXT4_CRC32_INIT uuid) (le32 dirId))
      (le32 gen))
    (blk.take (BLOCK_SIZE - 12) ++
      (le32 t.reserved_zero1 ++ le16 t.rec_len ++
        [t.reserved_zero2 % 256, t.reserved_ft % 256]))

/-- Modelled from the spec: `tail.set_csum(uuid, dir_id, generation, blk)`
from the missing current `dir_entry` module. -/
def DirEntryTail.set_csum (t : DirEntryTail) (uuid : List Nat) (dirId gen : Nat)
    (blk : List Nat) : DirEntryTail :=
  { t with checksum := dir_tail_csum uuid dirId gen blk t }

/-! ## Directory operations (`src/ext4/dir.rs`) -/

/-- Walk of `Ext4::find_entry_in_block` (`dir.rs` lines 122–132); `fuel`
bounds the walk (a malformed block with a zero record length diverges in
the source; here the fuel runs out and the walk reports no match). -/
def find_entry_in_block_go (block : List Nat) (name : List Nat) :
    Nat → Nat → Option DirEntry
  | _, 0 => none
  | offset, f+1 =>
    if offset < BLOCK_SIZE then
      let de := readDirEntry block offset
      if de.unused = false ∧ de.compare_name name then some de
      else find_entry_in_block_go block name (offset + de.rec_len) f
    else none

/-- `Ext4::find_entry_in_block`. -/
def find_entry_in_block (block : List Nat) (name : List Nat) : Option DirEntry :=
  find_entry_in_block_go block name 0 BLOCK_SIZE

/-- Walk of `Ext4::remove_entry_from_block` (`dir.rs` lines 135–148): find
the first live entry matching `name`, mark it unused (`inode := 0`) and
write the entry record back in place; returns the match offset and the
updated block bytes, `none` when no live entry matches. -/
def remove_entry_from_block_go (block : List Nat) (name : List Nat) :
    Nat → Nat → Option (Nat × List Nat)
  | _, 0 => none
  | offset, f+1 =>
    if offset < BLOCK_SIZE then
      let de := readDirEntry block offset
      if de.unused = false ∧ de.compare_name name then
        some (offset, writeBytesAt block offset (encodeDirEntry de.set_unused))
      else remove_entry_from_block_go block name (offset + de.rec_len) f
    else none

/-- `Ext4::remove_entry_from_block` (the source returns the success flag and
mutates the block in place). -/
def remove_entry_from_block (block : List Nat) (name : List Nat) :
    Option (Nat × List Nat) :=
  remove_entry_from_block_go block name 0 BLOCK_SIZE

/-- Loop of `Ext4::dir_remove_entry` (`dir.rs` lines 77–102) over the
directory's logical blocks: query the extent mapping (the source `unwrap`s
it: an unmapped block is the `fatal` panic), load the block, try the
in-block removal, write the block back on success; `ENOENT` when every
block was tried. -/
def dir_remove_entry_go (s : FsState) (dir : InodeRef) (name : List Nat) :
    Nat → Nat → Except ErrCode Unit × FsState
  | _, 0 => (.error .ENOENT, s)
  | iblock, f+1 =>
    if iblock < dir.inode.block_count then
      match extent_query dir.inode iblock with
      | none => (.error .fatal, s)
      | some fblock =>
        match remove_entry_from_block (read_block s fblock) name with
        | some r => (.ok (), write_block s fblock r.2)
        | none => dir_remove_entry_go s dir name (iblock + 1) f
    else (.error .ENOENT, s)

/-- `Ext4::dir_remove_entry`. -/
def dir_remove_entry (s : FsState) (dir : InodeRef) (name : List Nat) :
    Except ErrCode Unit × FsState :=
  dir_remove_entry_go s dir name 0 dir.inode.block_count

/-- `Ext4::insert_entry_to_new_block` (`dir.rs` lines 165–192): place the
entry at offset 0 spanning `B − 12` bytes, then set a fresh tail whose
checksum covers the block with the new entry (the tail itself is written
after the checksum is computed), and write the block. -/
def insert_entry_to_new_block (s : FsState) (dir child : InodeRef)
    (name : List Nat) (fblock : Nat) (block : List Nat) : FsState :=
  let rec_len := BLOCK_SIZE - 12
  let newEntry := DirEntry.new child.id rec_len name child.inode.ftype
  let block1 := writeBytesAt block 0 (encodeDirEntry newEntry)
  let tail1 := DirEntryTail.new.set_csum (read_super_block s).uuid dir.id
    dir.inode.generation block1
  let block2 := writeBytesAt block1 (BLOCK_SIZE - 12) (encodeDirEntryTail tail1)
  write_block s fblock block2

/-- Walk of `Ext4::insert_entry_to_old_block` (`dir.rs` lines 196–248): find
an entry whose slack fits the new entry, shrink it to its used size, place
the new entry in the slack, recompute the tail checksum over the updated
block, write the tail, and return the final block bytes. -/
def insert_entry_to_old_block_go (uuid : List Nat) (dir child : InodeRef)
    (name : List Nat) (block : List Nat) : Nat → Nat → Option (List Nat)
  | _, 0 => none
  | offset, f+1 =>
    if offset < BLOCK_SIZE then
      let de := readDirEntry block offset
      let rec_len := de.rec_len
      let used_size := de.used_size
      let free_size := rec_len - used_size
      if free_size < DirEntry.required_size name.length then
        insert_entry_to_old_block_go uuid dir child name block (offset + rec_len) f
      else
        let block1 := writeBytesAt block offset
          (encodeDirEntry { de with rec_len := used_size })
        let newEntry := DirEntry.new child.id free_size name child.inode.ftype
        let block2 := writeBytesAt block1 (offset + used_size)
          (encodeDirEntry newEntry)
        let tail1 := (readDirEntryTail block2 (BLOCK_SIZE - 12)).set_csum uuid
          dir.id dir.inode.generation block2
        some (writeBytesAt block2 (BLOCK_SIZE - 12) (encodeDirEntryTail tail1))
    else none

/-- `Ext4::insert_entry_to_old_block`, with the final `write_block`. -/
def insert_entry_to_old_block (s : FsState) (dir child : InodeRef)
    (name : List Nat) (fblock : Nat) : Option FsState :=
  match insert_entry_to_old_block_go (read_super_block s).uuid dir child name
      (read_block s fblock) 0 BLOCK_SIZE with
  | some blockF => some (write_block s fblock blockF)
  | none => none

/-- First-pass loop of `Ext4::dir_add_entry` (`dir.rs` lines 49–61): try the
in-place insertion on each existing block (the extent `unwrap` again is the
`fatal` panic). -/
def dir_add_entry_loop (s : FsState) (dir child : InodeRef) (name : List Nat) :
    Nat → Nat → Except ErrCode (Option FsState)
  | _, 0 => .ok none
  | iblock, f+1 =>
    if iblock < dir.inode.block_count then
      match extent_query dir.inode iblock with
      | none => .error .fatal
      | some fblock =>
        match insert_entry_to_old_block s dir child name fblock with
        | some s1 => .ok (some s1)
        | none => dir_add_entry_loop s dir child name (iblock + 1) f
    else .ok none

/-- `Ext4::dir_add_entry` (`dir.rs` lines 34–74): in-place first; otherwise
append a data block via `inode_append_block`, fill it with the single entry
and tail, and grow `dir.size` by one block. -/
def dir_add_entry (s : FsState) (dir child : InodeRef) (name : List Nat) :
    Except ErrCode Unit × InodeRef × FsState :=
  match dir_add_entry_loop s dir child name 0 dir.inode.block_count with
  | .error e => (.error e, dir, s)
  | .ok (some s1) => (.ok (), dir, s1)
  | .ok none =>
    match inode_append_block s dir with
    | (.error e, dir1, s1) => (.error e, dir1, s1)
    | (.ok (_, fblock), dir1, s1) =>
      let s2 := insert_entry_to_new_block s1 dir1 child name fblock
        (read_block s1 fblock)
      let dir2 := { dir1 with inode :=
        { dir1.inode with size := dir1.inode.size + BLOCK_SIZE } }
      (.ok (), dir2, s2)

/-- The name `"."` as bytes. -/
def dotName : List Nat := [46]

/-- The name `".."` as bytes. -/
def dotDotName : List Nat := [46, 46]

/-- `Ext4::create_root_inode` (`alloc.rs` lines 29–47): build the root inode
value with the fixed id `EXT4_ROOT_INO` (no allocator call), add the `"."`
and `".."` entries (both referencing the root), set the link count to 2 and
write the inode with checksum. -/
def create_root_inode (s : FsState) : Except ErrCode InodeRef × FsState :=
  let inode : Inode :=
    { ftype := 2, size := 0, block_count := 0,
      link_count := 0, generation := 0, extents := [] }
  let root : InodeRef := ⟨EXT4_ROOT_INO, inode⟩
  let root_self := root
  match dir_add_entry s root root_self dotName with
  | (.error e, _, s1) => (.error e, s1)
  | (.ok (), root1, s1) =>
    match dir_add_entry s1 root1 root_self dotDotName with
    | (.error e, _, s2) => (.error e, s2)
    | (.ok (), root2, s2) =>
      let root3 := { root2 with inode := { root2.inode with link_count := 2 } }
      let s3 := write_inode_with_csum s2 root3
      (.ok root3, s3)

/-! ## Old-version directory entry (`src/ext4_defs/dir_entry.rs`) -/

/-- `Ext4DirEntry` of the snapshot's `ext4_defs/dir_entry.rs` (the fields its
checksum routine reads; the 255-byte name array does not enter the
checksum). -/
structure Ext4DirEntry where
  inode : Nat
  entry_len : Nat
  name_len : Nat
  inner : Nat
  deriving DecidableEq, Repr

/-- `Ext4DirEntry::ext4_dir_get_csum` (`dir_entry.rs` lines 77–92): CRC32C
seeded with the uuid, then this entry's `inode` field (little-endian), then
a zero generation, then the block bytes copied into a zeroed `0xff4`-byte
buffer (so the block bytes zero-padded/truncated to `B − 12`); the tail
bytes are not fed. -/
def ext4_dir_get_csum (s : SuperBlock) (de : Ext4DirEntry) (blk_data : List Nat) :
    Nat :=
  let ino_index := de.inode
  let ino_gen := 0
  let uuid := s.uuid
  let csum1 := ext4_crc32c EXT4_CRC32_INIT uuid
  let csum2 := ext4_crc32c csum1 (le32 ino_index)
  let csum3 := ext4_crc32c csum2 (le32 ino_gen)
  let data := blk_data.take 0xff4 ++ List.replicate (0xff4 - blk_data.length) 0
  ext4_crc32c csum3 data

/-! ## Old-version inode (`src/ext4_defs/inode.rs`) -/

/-- `Linux2` (`inode.rs` lines 20–27). -/
structure Linux2 where
  l_i_blocks_high : Nat
  l_i_file_acl_high : Nat
  l_i_uid_high : Nat
  l_i_gid_high : Nat
  l_i_checksum_lo : Nat
  l_i_reserved : Nat

/-- `Ext4Inode` (`inode.rs` lines 31–59); the struct is 0x9c = 156 bytes. -/
structure Ext4Inode where
  mode : Nat
  uid : Nat
  size : Nat
  atime : Nat
  ctime : Nat
  mtime : Nat
  dtime : Nat
  gid : Nat
  links_count : Nat
  blocks : Nat
  flags : Nat
  osd1 : Nat
  block : Fin 15 → Nat
  generation : Nat
  file_acl : Nat
  size_hi : Nat
  faddr : Nat
  osd2 : Linux2
  i_extra_isize : Nat
  i_checksum_hi : Nat
  i_ctime_extra : Nat
  i_mtime_extra : Nat
  i_atime_extra : Nat
  i_crtime : Nat
  i_crtime_extra : Nat
  i_version_hi : Nat

/-- The little-endian in-memory byte image of `Ext4Inode` (the `0x9c` bytes
that `copy_to_byte_slice`, `inode.rs` lines 227–233, copies). -/
def inodeBytes (i : Ext4Inode) : List Nat :=
  le16 i.mode ++ le16 i.uid ++ le32 i.size ++ le32 i.atime ++ le32 i.ctime ++
  le32 i.mtime ++ le32 i.dtime ++ le16 i.gid ++ le16 i.links_count ++
  le32 i.blocks ++ le32 i.flags ++ le32 i.osd1 ++
  (List.ofFn fun k : Fin 15 => le32 (i.block k)).flatten ++
  le32 i.generation ++ le32 i.file_acl ++ le32 i.size_hi ++ le32 i.faddr ++
  le16 i.osd2.l_i_blocks_high ++ le16 i.osd2.l_i_file_acl_high ++
  le16 i.osd2.l_i_uid_high ++ le16 i.osd2.l_i_gid_high ++
  le16 i.osd2.l_i_checksum_lo ++ le16 i.osd2.l_i_reserved ++
  le16 i.i_extra_isize ++ le16 i.i_checksum_hi ++
  le32 i.i_ctime_extra ++ le32 i.i_mtime_extra ++ le32 i.i_atime_extra ++
  le32 i.i_crtime ++ le32 i.i_crtime_extra ++ le32 i.i_version_hi

/-- Both checksum fields zeroed (`inode.rs` lines 242–243). -/
def inode_zero_csum (i : Ext4Inode) : Ext4Inode :=
  { i with osd2 := { i.osd2 with l_i_checksum_lo := 0 }, i_checksum_hi := 0 }

/-- `Ext4Inode::set_inode_checksum_value` (`inode.rs` lines 149–161): store
the low 16 bits in `osd2.l_i_checksum_lo`, and the high 16 bits in
`i_checksum_hi` only when the inode size exceeds 128. -/
def set_inode_checksum_value (i : Ext4Inode) (sb : SuperBlock)
    (_inode_id csum : Nat) : Ext4Inode :=
  let i1 := { i with osd2 := { i.osd2 with l_i_checksum_lo := csum % 65536 } }
  if sb.inode_size > 128 then { i1 with i_checksum_hi := csum / 65536 % 65536 }
  else i1

/-- `Ext4Inode::calc_checksum` (`inode.rs` lines 235–266): zero both
checksum fields, CRC the uuid, the inode id, the generation, then the first
`inode_size` bytes of the struct image zero-padded to 0x100 bytes; store
via `set_inode_checksum_value`; mask to 16 bits when `inode_size = 128`.
Returns the checksum and the mutated inode. -/
def calc_checksum (i : Ext4Inode) (inode_id : Nat) (sb : SuperBlock) :
    Nat × Ext4Inode :=
  let inode_size := sb.inode_size
  let ino_gen := i.generation
  let i1 := inode_zero_csum i
  let c1 := ext4_crc32c EXT4_CRC32_INIT sb.uuid
  let c2 := ext4_crc32c c1 (le32 inode_id)
  let c3 := ext4_crc32c c2 (le32 ino_gen)
  let raw := inodeBytes i1 ++ List.replicate 100 0
  let c4 := ext4_crc32c c3 (raw.take inode_size)
  let i2 := set_inode_checksum_value i1 sb inode_id c4
  let c5 := if inode_size = 128 then c4 % 65536 else c4
  (c5, i2)

/-- `Ext4Inode::set_checksum` (`inode.rs` lines 268–276). -/
def set_checksum (i : Ext4Inode) (sb : SuperBlock) (inode_id : Nat) : Ext4Inode :=
  let r := calc_checksum i inode_id sb
  let i3 := { r.2 with osd2 := { r.2.osd2 with l_i_checksum_lo := r.1 % 65536 } }
  if sb.inode_size > 128 then { i3 with i_checksum_hi := r.1 / 65536 % 65536 }
  else i3

/-! ## Spec-side definitions used to state the claims -/

/-- Claimed (spec-side) formula for C6/C5: the dir-block tail checksum as
the claim states it — CRC32C over `uuid ‖ dir_inode_id_le32 ‖
generation_le32 ‖ first B−12 block bytes (tail checksum zeroed — it lies
outside them) ‖ tail bytes without the checksum field`, as one
concatenation. -/
def claimedDirTailCsum (uuid : List Nat) (dirId gen : Nat) (blk : List Nat) : Nat :=
  ext4_crc32c EXT4_CRC32_INIT
    (uuid ++ le32 dirId ++ le32 gen ++ blk.take (BLOCK_SIZE - 12) ++
      (blk.drop (BLOCK_SIZE - 12)).take 8)

/-- Claimed (spec-side) formula for C8: CRC32C over `uuid ‖ inode_id_le32 ‖
generation_le32 ‖ inode bytes (inode_size of them, zero-padded past the
156-byte struct) with both checksum fields zeroed`, as one concatenation. -/
def claimedInodeCsum (sb : SuperBlock) (inode_id : Nat) (i : Ext4Inode) : Nat :=
  ext4_crc32c EXT4_CRC32_INIT
    (sb.uuid ++ le32 inode_id ++ le32 i.generation ++
      ((inodeBytes (inode_zero_csum i) ++ List.replicate 100 0).take sb.inode_size))

/-- Claimed (spec-side) frame for C10: all the state the inode allocator
owns is untouched — the superblock's free-inodes counter and every group
descriptor's free-inodes, used-dirs and itable-unused counters. -/
def inodeCountersPreserved (s s' : FsState) : Prop :=
  s'.sb.free_inodes_count = s.sb.free_inodes_count ∧
  ∀ g, (read_block_group s' g).free_inodes_count
        = (read_block_group s g).free_inodes_count ∧
      (read_block_group s' g).used_dirs_count
        = (read_block_group s g).used_dirs_count ∧
      (read_block_group s' g).itable_unused
        = (read_block_group s g).itable_unused

/-- Claimed (spec-side) classification for C10 of the writes
`create_root_inode` may issue: raw block writes (data blocks and the block
bitmap), superblock writes that keep the free-inodes counter, group
descriptor writes that keep the three inode-side counters, and inode-slot
writes only for the fixed root inode id. -/
def benignEvent (s : FsState) : WriteEvent → Prop
  | .block _ _ => True
  | .superblock sbv => sbv.free_inodes_count = s.sb.free_inodes_count
  | .groupDesc g bgv =>
      bgv.free_inodes_count = (read_block_group s g).free_inodes_count ∧
      bgv.used_dirs_count = (read_block_group s g).used_dirs_count ∧
      bgv.itable_unused = (read_block_group s g).itable_unused
  | .inode id _ _ => id = EXT4_ROOT_INO

/-- Claimed (spec-side) relation for C10: `s'` extends `s` by writes that
are all benign and preserves the inode allocator's counters. -/
def rootFrame (s s' : FsState) : Prop :=
  inodeCountersPreserved s s' ∧
  ∃ tail, s'.writes = s.writes ++ tail ∧ ∀ e ∈ tail, benignEvent s e

/-- Claimed (spec-side) notion for C2: the base physical block number of a
block group, per the on-disk layout of §3/§6 — group `g` covers
`blocks_per_group` blocks starting at `first_data_block + g *
blocks_per_group`. -/
def groupBaseBlock (sb : SuperBlock) (bgid : Nat) : Nat :=
  sb.first_data_block + bgid * sb.blocks_per_group

/-! ## Concrete scenario states -/

/-- A one-group superblock: 16 inodes per group, 10 free inodes overall. -/
def sbOne : SuperBlock :=
  { free_inodes_count := 10, free_blocks_count := 100, inodes_per_group := 16,
    blocks_per_group := 32768, first_data_block := 0, block_group_count := 1,
    inode_size := 256, uuid := List.replicate 16 0 }

/-- Group 0 descriptor: all 16 inodes free, block bitmap at block 10, inode
bitmap at block 20. -/
def bgOne : BlockGroupDesc :=
  { free_inodes_count := 16, free_blocks_count := 50, used_dirs_count := 0,
    itable_unused := 16, block_bitmap_block := 10, inode_bitmap_block := 20 }

/-- Fresh one-group filesystem state: both bitmaps read as all-zero. -/
def stOne : FsState := ⟨sbOne, [bgOne], [], []⟩

/-- A regular-file inode value (file-type byte 1). -/
def fileInode : Inode :=
  { ftype := 1, size := 0, block_count := 0, link_count := 0, generation := 0,
    extents := [] }

/-- The inode reference returned by the allocation in `stOne` (id 1). -/
def refOne : InodeRef := ⟨1, fileInode⟩

/-- State of `stOne` after `alloc_inode stOne false`. -/
def stOneA : FsState := (alloc_inode stOne false).snd

/-- State of `stOneA` after `dealloc_inode stOneA refOne`. -/
def stOneB : FsState := (dealloc_inode stOneA refOne).snd

/-- One-group state whose block bitmap has bit 0 set (for a deallocation). -/
def stOneBset : FsState :=
  ⟨sbOne, [bgOne], [(10, 1 :: List.replicate 4095 0)], []⟩

/-- One-group state whose inode bitmap has bit 0 set (for a deallocation). -/
def stOneIset : FsState :=
  ⟨sbOne, [bgOne], [(20, 1 :: List.replicate 4095 0)], []⟩

/-- Two-group superblock with 4 inodes per group (so inode 5 lives in group
1). -/
def sbTwo : SuperBlock :=
  { free_inodes_count := 8, free_blocks_count := 100, inodes_per_group := 4,
    blocks_per_group := 32768, first_data_block := 0, block_group_count := 2,
    inode_size := 256, uuid := List.replicate 16 0 }

/-- Group descriptors for `sbTwo`: group 1's block bitmap is block 11. -/
def stTwo : FsState :=
  ⟨sbTwo, [⟨4, 50, 0, 4, 10, 20⟩, ⟨4, 50, 0, 4, 11, 21⟩], [], []⟩

/-- An inode reference with id 5, owned by group 1 of `sbTwo`. -/
def refFive : InodeRef := ⟨5, fileInode⟩

/-- Two-group superblock, 16 inodes per group. -/
def sbSkew : SuperBlock :=
  { free_inodes_count := 17, free_blocks_count := 100, inodes_per_group := 16,
    blocks_per_group := 32768, first_data_block := 0, block_group_count := 2,
    inode_size := 256, uuid := List.replicate 16 0 }

/-- A state whose group 0 descriptor reports one free inode while its inode
bitmap (block 20) is fully set in the scanned range, and whose group 1 is
entirely free (inode bitmap block 21 reads as zeros). -/
def stSkew : FsState :=
  ⟨sbSkew, [⟨1, 50, 0, 0, 10, 20⟩, ⟨16, 50, 0, 16, 11, 21⟩],
    [(20, 255 :: 255 :: List.replicate 4094 0)], []⟩

/-- `refOne` after one extent `(0, 1, 0)` has been created for it. -/
def refOneExt : InodeRef :=
  ⟨1, { ftype := 1, size := 0, block_count := 0, link_count := 0,
        generation := 0, extents := [⟨0, 1, 0⟩] }⟩

/-- An all-zero old-version inode. -/
def iZero : Ext4Inode :=
  { mode := 0, uid := 0, size := 0, atime := 0, ctime := 0, mtime := 0,
    dtime := 0, gid := 0, links_count := 0, blocks := 0, flags := 0,
    osd1 := 0, block := fun _ => 0, generation := 0, file_acl := 0,
    size_hi := 0, faddr := 0, osd2 := ⟨0, 0, 0, 0, 0, 0⟩,
    i_extra_isize := 0, i_checksum_hi := 0, i_ctime_extra := 0,
    i_mtime_extra := 0, i_atime_extra := 0, i_crtime := 0,
    i_crtime_extra := 0, i_version_hi := 0 }

/-- A superblock with 128-byte inodes. -/
def sb128 : SuperBlock :=
  { sbOne with inode_size := 128 }

/-- An old-version directory entry with inode 5 (a block's first entry). -/
def deFive : Ext4DirEntry := ⟨5, 4084, 1, 1⟩

/-- A one-block directory inode (id 2) mapping logical block 0 to physical
block 100. -/
def dirRefC5 : InodeRef :=
  ⟨2, { ftype := 2, size := 4096, block_count := 1, link_count := 2,
        generation := 0, extents := [⟨0, 1, 100⟩] }⟩

/-- A directory data block: one live entry (inode 7, name `"a"`, record
length spanning `B − 12`) and a tail with magic `0xDE` and checksum 0. -/
def blockC5 : List Nat :=
  writeBytesAt
    (writeBytesAt (List.replicate BLOCK_SIZE 0) 0
      (encodeDirEntry (DirEntry.new 7 (BLOCK_SIZE - 12) [97] 1)))
    (BLOCK_SIZE - 12) (encodeDirEntryTail ⟨0, 12, 0, 0xDE, 0⟩)

/-- State holding `blockC5` at physical block 100. -/
def stC5 : FsState := ⟨sbOne, [bgOne], [(100, blockC5)], []⟩

/-- The block written back by `dir_remove_entry stC5 dirRefC5 [97]`. -/
def blockC5out : List Nat :=
  read_block (dir_remove_entry stC5 dirRefC5 [97]).snd 100

/-- The inode reference returned by `create_root_inode` on `stOne`. -/
def rootC10 : InodeRef :=
  ⟨2, { ftype := 2, size := 4096, block_count := 1, link_count := 2,
        generation := 0, extents := [⟨0, 1, 0⟩] }⟩

/-- The offset and block produced by the in-block removal on `blockC5`. -/
def c5RemRes : Nat × List Nat :=
  (remove_entry_from_block blockC5 [97]).getD (0, [])

/-- A directory data block of directory inode 2 (generation 7): first entry
has inode 5 and name `"a"`, tail magic `0xDE`, stored checksum 0. -/
def blockB6 : List Nat :=
  writeBytesAt
    (writeBytesAt (List.replicate BLOCK_SIZE 0) 0
      (encodeDirEntry (DirEntry.new 5 (BLOCK_SIZE - 12) [97] 1)))
    (BLOCK_SIZE - 12) (encodeDirEntryTail ⟨0, 12, 0, 0xDE, 0⟩)

/-! # Theorems -/

theorem ext4_crc32c_append (crc : Nat) (xs ys : List Nat) :
    ext4_crc32c crc (xs ++ ys) = ext4_crc32c (ext4_crc32c crc xs) ys := by
  simp [ext4_crc32c]

theorem crcBit_lt (c : Nat) (h : c < 2 ^ 32) : crcBit c < 2 ^ 32 := by
  unfold crcBit
  split
  · exact Nat.xor_lt_two_pow (by omega) (by norm_num [CRC32C_POLY])
  · omega

theorem crcByte_lt (c b : Nat) (h : c < 2 ^ 32) : crcByte c b < 2 ^ 32 := by
  unfold crcByte
  have h0 : Nat.xor c (b % 256) < 2 ^ 32 :=
    Nat.xor_lt_two_pow h (lt_trans (Nat.mod_lt _ (by norm_num)) (by norm_num))
  exact crcBit_lt _ (crcBit_lt _ (crcBit_lt _ (crcBit_lt _ (crcBit_lt _
    (crcBit_lt _ (crcBit_lt _ (crcBit_lt _ h0)))))))

theorem ext4_crc32c_lt (crc : Nat) (buf : List Nat) (h : crc < 2 ^ 32) :
    ext4_crc32c crc buf < 2 ^ 32 := by
  induction buf generalizing crc with
  | nil => exact h
  | cons b bs ih => exact ih _ (crcByte_lt _ _ h)

theorem writeBytesAt_length (bytes : List Nat) (off : Nat) (patch : List Nat) :
    (writeBytesAt bytes off patch).length = bytes.length := by
  induction bytes generalizing off patch with
  | nil => rfl
  | cons b bs ih =>
    cases off with
    | zero => cases patch with
      | nil => rfl
      | cons p ps => simp [writeBytesAt, ih]
    | succ o => simp [writeBytesAt, ih]

theorem getByte_writeBytesAt_lo (bytes : List Nat) (off : Nat) (patch : List Nat)
    (j : Nat) (h : j < off) :
    getByte (writeBytesAt bytes off patch) j = getByte bytes j := by
  induction bytes generalizing off patch j with
  | nil => rfl
  | cons b bs ih =>
    cases off with
    | zero => omega
    | succ o =>
      cases j with
      | zero => rfl
      | succ k => simpa [writeBytesAt, getByte] using ih o patch k (by omega)

theorem getByte_writeBytesAt_hi (bytes : List Nat) (off : Nat) (patch : List Nat)
    (j : Nat) (h : off + patch.length ≤ j) :
    getByte (writeBytesAt bytes off patch) j = getByte bytes j := by
  induction bytes generalizing off patch j with
  | nil => rfl
  | cons b bs ih =>
    cases off with
    | zero =>
      cases patch with
      | nil => rfl
      | cons p ps =>
        cases j with
        | zero => simp at h
        | succ k => simpa [writeBytesAt, getByte] using ih 0 ps k (by simp at h; omega)
    | succ o =>
      cases j with
      | zero => omega
      | succ k => simpa [writeBytesAt, getByte] using ih o patch k (by omega)

/-- C1: on the fresh one-group state, `alloc_inode` hands out inode 1 and
`dealloc_inode` of that inode restores the group's `free_inodes_count`,
`used_dirs_count` and `itable_unused` — but the superblock's
`free_inodes_count` ends at 8, two below its prior value 10, because
`dealloc_inode` calls `decrease_free_inodes_count` instead of an
increment. -/
theorem c1_alloc_dealloc_superblock_drift :
    (alloc_inode stOne false).fst = .ok 1 ∧
    (dealloc_inode stOneA refOne).fst = .ok () ∧
    (read_block_group stOneB 0).free_inodes_count
      = (read_block_group stOne 0).free_inodes_count ∧
    (read_block_group stOneB 0).used_dirs_count
      = (read_block_group stOne 0).used_dirs_count ∧
    (read_block_group stOneB 0).itable_unused
      = (read_block_group stOne 0).itable_unused ∧
    stOne.sb.free_inodes_count = 10 ∧
    stOneB.sb.free_inodes_count = 8 := by
  decide

theorem crcForce_eq (l : List Nat) : ∀ c, crcForce c l = ext4_crc32c c l := by
  induction l with
  | nil => intro c; cases c <;> rfl
  | cons b bs ih =>
    intro c
    cases c with
    | zero => rw [show crcForce 0 (b :: bs) = crcForce (crcByte 0 b) bs from rfl, ih]; rfl
    | succ n => rw [show crcForce (n+1) (b :: bs) = crcForce (crcByte (n+1) b) bs from rfl, ih]; rfl

/-- Trace shape of a successful `alloc_inode_go`: one bitmap-block write,
then the group descriptor, then the superblock. -/
theorem alloc_inode_go_trace (fuel : Nat) :
    ∀ (s : FsState) (d : Bool) (sb : SuperBlock) (bgid : Nat) (v : Nat) (s' : FsState),
      alloc_inode_go s d sb bgid fuel = (.ok v, s') →
      s'.writes.map WriteEvent.kind
        = s.writes.map WriteEvent.kind ++ [.blk, .gd, .sb] := by
  induction fuel with
  | zero => intro s d sb bgid v s' h; simp [alloc_inode_go] at h
  | succ fuel ih =>
    intro s d sb bgid v s' h
    simp only [alloc_inode_go] at h
    split at h
    · exact ih s d sb (bgid + 1) v s' h
    · split at h
      · simp at h
      · simp only [Prod.mk.injEq] at h
        rw [← h.2]
        simp [write_block, write_block_group_with_csum, write_super_block, WriteEvent.kind]

/-- C2: on `stTwo`, allocating a block for inode 5 (group 1) returns the raw
bitmap bit index 0, not the group-absolute block number
`groupBaseBlock sbTwo 1 + 0 = 32768` that the claim (and spec §4.3)
prescribe. -/
theorem c2_alloc_block_not_absolute :
    (alloc_block stTwo refFive).fst = .ok 0 ∧
    groupBaseBlock sbTwo 1 = 32768 ∧
    (0 : Nat) ≠ 32768 := by
  decide

/-- C3 counterexample: in `stSkew`, group 0 reports a free inode but its
bitmap is fully set in the scanned range, so `alloc_inode` aborts with
`ENOSPC` (issuing no write) even though group 1 has free inodes — the
allocator does not advance past a selected group on bitmap exhaustion, and
`ENOSPC` is returned while a group still has a free inode. -/
theorem c3_abort_on_bitmap_exhaustion :
    (alloc_inode stSkew false).fst = .error .ENOSPC ∧
    (alloc_inode stSkew false).snd.writes = [] ∧
    (read_block_group stSkew 1).free_inodes_count = 16 ∧
    Bitmap.is_bit_clear (read_block stSkew 21) 0 = true := by
  decide

/-- C3 (amended): `alloc_inode` scans groups from 0; it advances to the next
group only when the group's descriptor reports `free_inodes_count = 0`;
when a selected group's inode bitmap has no clear bit in the scanned range
the allocator returns `ENOSPC` immediately (with the state unchanged)
instead of advancing. -/
theorem c3_amended_skip_only_on_zero_counter (s : FsState) (d : Bool)
    (sb : SuperBlock) (bgid fuel : Nat) :
    (alloc_inode s d
      = alloc_inode_go s d (read_super_block s) 0
          ((read_super_block s).block_group_count + 1)) ∧
    ((read_block_group s bgid).free_inodes_count = 0 →
      alloc_inode_go s d sb bgid (fuel+1) = alloc_inode_go s d sb (bgid+1) fuel) ∧
    ((read_block_group s bgid).free_inodes_count ≠ 0 →
      Bitmap.find_and_set_first_clear_bit
        ((read_block s (read_block_group s bgid).inode_bitmap_block).take
          (sb.inode_count_in_group bgid / 8)) 0 (sb.inode_count_in_group bgid)
        = none →
      alloc_inode_go s d sb bgid (fuel+1) = (.error .ENOSPC, s)) := by
  refine ⟨rfl, ?_, ?_⟩
  · intro h0
    simp only [alloc_inode_go]
    rw [if_pos h0]
  · intro h0 hscan
    simp only [alloc_inode_go]
    rw [if_neg h0, hscan]

theorem c3_amended_witness :
    (alloc_inode_go stSkew false sbSkew 5 1 = alloc_inode_go stSkew false sbSkew 6 0) ∧
    (alloc_inode_go stSkew false sbSkew 0 3 = (.error .ENOSPC, stSkew)) := by
  constructor
  · exact (c3_amended_skip_only_on_zero_counter stSkew false sbSkew 5 0).2.1 (by decide)
  · exact (c3_amended_skip_only_on_zero_counter stSkew false sbSkew 0 2).2.2
      (by decide) (by decide)

/-- C4 counterexample: on the fresh one-group state, `alloc_block` issues its
three writes in the order bitmap block, superblock, group descriptor — the
group descriptor is not written before the superblock as the claim
states. -/
theorem c4_alloc_block_order_differs :
    (alloc_block stOne refOne).snd.writes.map WriteEvent.kind
      = [.blk, .sb, .gd] ∧
    ([WriteKind.blk, .sb, .gd] ≠ [WriteKind.blk, .gd, .sb]) := by
  decide

/-- C4 (amended): within each allocator mutation the bitmap block is written
first, but the remaining order differs by operation: `alloc_block` and
`dealloc_block` write superblock before group descriptor, while
`alloc_inode` and `dealloc_inode` write group descriptor before
superblock. -/
theorem c4_amended_write_orders (s : FsState) (ref : InodeRef) (pb : Nat) (d : Bool) :
    (∀ (v : Nat) (s' : FsState), alloc_block s ref = (.ok v, s') →
      s'.writes.map WriteEvent.kind
        = s.writes.map WriteEvent.kind ++ [.blk, .sb, .gd]) ∧
    (∀ s' : FsState, dealloc_block s ref pb = (.ok (), s') →
      s'.writes.map WriteEvent.kind
        = s.writes.map WriteEvent.kind ++ [.blk, .sb, .gd]) ∧
    (∀ (v : Nat) (s' : FsState), alloc_inode s d = (.ok v, s') →
      s'.writes.map WriteEvent.kind
        = s.writes.map WriteEvent.kind ++ [.blk, .gd, .sb]) ∧
    (∀ s' : FsState, dealloc_inode s ref = (.ok (), s') →
      s'.writes.map WriteEvent.kind
        = s.writes.map WriteEvent.kind ++ [.blk, .gd, .sb]) := by
  refine ⟨?_, ?_, ?_, ?_⟩
  · intro v s' h
    simp only [alloc_block] at h
    split at h
    · simp at h
    · simp only [Prod.mk.injEq] at h
      rw [← h.2]
      simp [write_block, write_block_group_with_csum, write_super_block, WriteEvent.kind]
  · intro s' h
    simp only [dealloc_block] at h
    split at h
    · simp at h
    · simp only [Prod.mk.injEq] at h
      rw [← h.2]
      simp [write_block, write_block_group_with_csum, write_super_block, WriteEvent.kind]
  · intro v s' h
    exact alloc_inode_go_trace _ _ _ _ _ _ _ h
  · intro s' h
    simp only [dealloc_inode] at h
    split at h
    · simp at h
    · simp only [Prod.mk.injEq] at h
      rw [← h.2]
      simp [write_block, write_block_group_with_csum, write_super_block, WriteEvent.kind]

theorem c4_amended_witness :
    (alloc_block stOne refOne).snd.writes.map WriteEvent.kind
      = stOne.writes.map WriteEvent.kind ++ [.blk, .sb, .gd] ∧
    (dealloc_block stOneBset refOne 0).snd.writes.map WriteEvent.kind
      = stOneBset.writes.map WriteEvent.kind ++ [.blk, .sb, .gd] ∧
    (alloc_inode stOne false).snd.writes.map WriteEvent.kind
      = stOne.writes.map WriteEvent.kind ++ [.blk, .gd, .sb] ∧
    (dealloc_inode stOneIset refOne).snd.writes.map WriteEvent.kind
      = stOneIset.writes.map WriteEvent.kind ++ [.blk, .gd, .sb] := by
  have hab : alloc_block stOne refOne
      = ((alloc_block stOne refOne).fst, (alloc_block stOne refOne).snd) := rfl
  have hdb : dealloc_block stOneBset refOne 0
      = ((dealloc_block stOneBset refOne 0).fst, (dealloc_block stOneBset refOne 0).snd) := rfl
  have hai : alloc_inode stOne false
      = ((alloc_inode stOne false).fst, (alloc_inode stOne false).snd) := rfl
  have hdi : dealloc_inode stOneIset refOne
      = ((dealloc_inode stOneIset refOne).fst, (dealloc_inode stOneIset refOne).snd) := rfl
  rw [show (alloc_block stOne refOne).fst = .ok 0 from by decide] at hab
  rw [show (dealloc_block stOneBset refOne 0).fst = .ok () from by decide] at hdb
  rw [show (alloc_inode stOne false).fst = .ok 1 from by decide] at hai
  rw [show (dealloc_inode stOneIset refOne).fst = .ok () from by decide] at hdi
  refine ⟨?_, ?_, ?_, ?_⟩
  · exact (c4_amended_write_orders stOne refOne 0 false).1 0 _ hab
  · exact (c4_amended_write_orders stOneBset refOne 0 false).2.1 _ hdb
  · exact (c4_amended_write_orders stOne refOne 0 false).2.2.1 1 _ hai
  · exact (c4_amended_write_orders stOneIset refOne 0 false).2.2.2 _ hdi

/-- C9: whenever `dealloc_block` or `dealloc_inode` returns an error (the
only error they return is `EINVAL`, for an already-clear bitmap bit), the
returned state is exactly the input state: no block-device write was
issued, and the bitmap, descriptor and superblock are untouched. -/
theorem c9_dealloc_error_is_atomic (s : FsState) (ref : InodeRef) (pb : Nat)
    (e : ErrCode) :
    ((dealloc_block s ref pb).fst = .error e → (dealloc_block s ref pb).snd = s) ∧
    ((dealloc_inode s ref).fst = .error e → (dealloc_inode s ref).snd = s) := by
  constructor
  · intro h
    simp only [dealloc_block] at h ⊢
    split at h <;> rename_i hcond
    · rw [if_pos hcond]
    · simp at h
  · intro h
    simp only [dealloc_inode] at h ⊢
    split at h <;> rename_i hcond
    · rw [if_pos hcond]
    · simp at h

theorem c9_witness :
    (dealloc_block stOne refOne 0).snd = stOne ∧
    (dealloc_inode stOne refOne).snd = stOne := by
  constructor
  · exact (c9_dealloc_error_is_atomic stOne refOne 0 .EINVAL).1 (by decide)
  · exact (c9_dealloc_error_is_atomic stOne refOne 0 .EINVAL).2 (by decide)

/-- A successful `extent_query_or_create` changes at most the inode's
extent list: id, block count and size are preserved. -/
theorem extent_qoc_preserves (s : FsState) (ref : InodeRef) (l c fb : Nat)
    (ref1 : InodeRef)
    (h : (extent_query_or_create s ref l c).fst = .ok (fb, ref1)) :
    ref1.id = ref.id ∧ ref1.inode.block_count = ref.inode.block_count ∧
    ref1.inode.size = ref.inode.size := by
  simp only [extent_query_or_create] at h
  split at h
  · simp at h
    rcases h with ⟨h1, h2⟩
    rw [← h2]
    exact ⟨rfl, rfl, rfl⟩
  · split at h
    · simp at h
    · split at h
      · simp at h
        rcases h with ⟨h1, h2⟩
        rw [← h2]
        exact ⟨rfl, rfl, rfl⟩
      · simp at h

/-- C7: a successful `inode_append_block` uses `iblock = inode.block_count`
as the new logical block, obtains the physical block from
`extent_query_or_create(inode, iblock, 1)`, increments `block_count` by
exactly one, leaves `size` unchanged, and issues exactly one further write:
the inode, without checksum recomputation. -/
theorem c7_inode_append_block (s : FsState) (ref : InodeRef) (fb : Nat)
    (ref1 : InodeRef)
    (h : (extent_query_or_create s ref ref.inode.block_count 1).fst = .ok (fb, ref1)) :
    (inode_append_block s ref).fst = .ok (ref.inode.block_count, fb) ∧
    (inode_append_block s ref).2.1.inode.block_count = ref.inode.block_count + 1 ∧
    (inode_append_block s ref).2.1.inode.size = ref.inode.size ∧
    (inode_append_block s ref).2.1.id = ref.id ∧
    (inode_append_block s ref).2.2
      = write_inode_without_csum
          (extent_query_or_create s ref ref.inode.block_count 1).snd
          (inode_append_block s ref).2.1 ∧
    (inode_append_block s ref).2.2.writes
      = (extent_query_or_create s ref ref.inode.block_count 1).snd.writes
        ++ [WriteEvent.inode ref.id (inode_append_block s ref).2.1.inode false] := by
  obtain ⟨hid, hbc, hsz⟩ := extent_qoc_preserves s ref ref.inode.block_count 1 fb ref1 h
  obtain ⟨s1, hs1⟩ : ∃ s1, extent_query_or_create s ref ref.inode.block_count 1
      = (.ok (fb, ref1), s1) :=
    ⟨(extent_query_or_create s ref ref.inode.block_count 1).snd, by rw [← h]⟩
  have hsnd : (extent_query_or_create s ref ref.inode.block_count 1).snd = s1 := by
    rw [hs1]
  refine ⟨?_, ?_, ?_, ?_, ?_, ?_⟩ <;>
    simp_all [inode_append_block, hs1, hsnd, write_inode_without_csum]

theorem c7_witness :
    (inode_append_block stOne refOne).fst = .ok (0, 0) ∧
    (inode_append_block stOne refOne).2.1.inode.block_count = 1 ∧
    (inode_append_block stOne refOne).2.1.inode.size = 0 := by
  have h : (extent_query_or_create stOne refOne refOne.inode.block_count 1).fst
      = .ok (0, refOneExt) := by decide
  have hc := c7_inode_append_block stOne refOne 0 refOneExt h
  exact ⟨hc.1.trans (by decide), hc.2.1.trans (by decide), hc.2.2.1.trans (by decide)⟩

/-- C8: the stored inode checksum is the claimed CRC32C of
`uuid ‖ inode_id ‖ generation ‖ inode bytes (inode_size of them) with both
checksum fields zeroed`: the low 16 bits land in `osd2.l_i_checksum_lo`,
the high 16 bits land in `i_checksum_hi` exactly when the inode size
exceeds 128 (otherwise `i_checksum_hi` stays zeroed). -/
theorem c8_inode_checksum_layout (sb : SuperBlock) (i : Ext4Inode) (inode_id : Nat) :
    (set_checksum i sb inode_id).osd2.l_i_checksum_lo
      = claimedInodeCsum sb inode_id i % 65536 ∧
    (sb.inode_size > 128 →
      (set_checksum i sb inode_id).i_checksum_hi
        = claimedInodeCsum sb inode_id i / 65536) ∧
    (¬ sb.inode_size > 128 → (set_checksum i sb inode_id).i_checksum_hi = 0) := by
  have hc : claimedInodeCsum sb inode_id i
      = ext4_crc32c
          (ext4_crc32c
            (ext4_crc32c (ext4_crc32c EXT4_CRC32_INIT sb.uuid) (le32 inode_id))
            (le32 i.generation))
          ((inodeBytes (inode_zero_csum i) ++ List.replicate 100 0).take sb.inode_size) := by
    simp only [claimedInodeCsum, ext4_crc32c_append]
  have hlt : ext4_crc32c
      (ext4_crc32c
        (ext4_crc32c (ext4_crc32c EXT4_CRC32_INIT sb.uuid) (le32 inode_id))
        (le32 i.generation))
      ((inodeBytes (inode_zero_csum i) ++ List.replicate 100 0).take sb.inode_size)
      < 2 ^ 32 := by
    refine ext4_crc32c_lt _ _ (ext4_crc32c_lt _ _ (ext4_crc32c_lt _ _
      (ext4_crc32c_lt _ _ ?_)))
    norm_num [EXT4_CRC32_INIT]
  rw [hc]
  simp only [set_checksum, calc_checksum, set_inode_checksum_value]
  generalize hC : ext4_crc32c
      (ext4_crc32c
        (ext4_crc32c (ext4_crc32c EXT4_CRC32_INIT sb.uuid) (le32 inode_id))
        (le32 i.generation))
      ((inodeBytes (inode_zero_csum i) ++ List.replicate 100 0).take sb.inode_size)
    = C
  rw [hC] at hlt
  refine ⟨?_, fun h128 => ?_, fun h128 => ?_⟩ <;>
    split_ifs <;> simp_all [inode_zero_csum] <;> omega

/-- C6 counterexample: a checksum the snapshot's `ext4_dir_get_csum`
computes for a block of directory 2 (generation 7) whose first entry is
inode 5 differs from the claimed `uuid ‖ dir_id ‖ generation ‖ block ‖
tail` formula: the code seeds with the entry's inode and a zero generation
and never feeds the tail bytes. -/
theorem c6_old_csum_differs :
    ext4_dir_get_csum sbOne deFive (blockB6.take 4084)
      ≠ claimedDirTailCsum sbOne.uuid 2 7 blockB6 := by
  have e1 : ∀ (c : Nat) (l : List Nat), ext4_crc32c c l = crcForce c l :=
    fun c l => (crcForce_eq l c).symm
  have hL : (blockB6.take 4084).length = 4084 := by
    rw [List.length_take, blockB6, writeBytesAt_length, writeBytesAt_length,
      List.length_replicate]
    decide
  have hSeed1 : crcForce (crcForce (crcForce EXT4_CRC32_INIT sbOne.uuid)
      (le32 deFive.inode)) (le32 0) = 321252443 := by decide
  have hCode : crcForce 321252443 ((blockB6.take 4084).take 0xff4)
      = 2548110899 := by decide
  have hSeed2 : crcForce (crcForce (crcForce EXT4_CRC32_INIT sbOne.uuid)
      (le32 2)) (le32 7) = 4034679189 := by decide
  have hTake : crcForce 4034679189 (blockB6.take (BLOCK_SIZE - 12))
      = 43606216 := by decide
  have hTail : crcForce 43606216 ((blockB6.drop (BLOCK_SIZE - 12)).take 8)
      = 4195088996 := by decide
  simp only [ext4_dir_get_csum, claimedDirTailCsum, hL,
    show (0xff4 - 4084 : Nat) = 0 from rfl, List.replicate_zero,
    List.append_nil, ext4_crc32c_append, e1, hSeed1, hCode, hSeed2, hTake,
    hTail]
  decide

/-- C6 (amended): the tail checksum computed by the snapshot's
`ext4_dir_get_csum` equals CRC32C over `uuid ‖ entry_inode_le32 ‖ 0_le32 ‖
block bytes zero-padded (or truncated) to the first B−12 bytes` — seeded by
the invoking entry's inode field with a zero generation, and without the
tail bytes.  (The `dir.rs` insert paths call the other, dir-id-and-
generation-seeded formulation, `DirEntryTail.set_csum`.) -/
theorem c6_amended_old_csum_formula (sb : SuperBlock) (de : Ext4DirEntry)
    (blk : List Nat) :
    ext4_dir_get_csum sb de blk
      = ext4_crc32c EXT4_CRC32_INIT
          (sb.uuid ++ le32 de.inode ++ le32 0 ++
            (blk.take 0xff4 ++ List.replicate (0xff4 - blk.length) 0)) := by
  simp only [ext4_dir_get_csum, ext4_crc32c_append]

theorem encodeDirEntry_length (de : DirEntry) :
    (encodeDirEntry de).length = 8 + de.name.length := by
  simp [encodeDirEntry, le32, le16]
  omega

/-- A successful in-block removal happens at the offset of the first live
matching entry, and rewrites it with only the inode field zeroed. -/
theorem remove_go_spec (block name : List Nat) :
    ∀ (fuel start off : Nat) (out : List Nat),
      remove_entry_from_block_go block name start fuel = some (off, out) →
      (readDirEntry block off).unused = false ∧
      (readDirEntry block off).compare_name name = true ∧
      out = writeBytesAt block off
        (encodeDirEntry ((readDirEntry block off).set_unused)) := by
  intro fuel
  induction fuel with
  | zero => intro start off out h; simp [remove_entry_from_block_go] at h
  | succ f ih =>
    intro start off out h
    simp only [remove_entry_from_block_go] at h
    split at h
    · split at h
      · rename_i hcond
        simp only [Option.some.injEq, Prod.mk.injEq] at h
        obtain ⟨h1, h2⟩ := h
        subst h1
        exact ⟨hcond.1, hcond.2, h2.symm⟩
      · exact ih _ _ _ h
    · simp at h

/-- C5 (amended): `remove_entry(dir, name)` finds the first live matching
entry, rewrites exactly that record with its inode field set to 0 (the
record length and every byte after the record — in particular the stored
tail checksum, which is not recomputed — are unchanged) and writes the
block back; it fails `ENOENT` when no live entry of any mapped block
matches. -/
theorem c5_remove_entry_tombstones (s : FsState) (dir : InodeRef)
    (name : List Nat) :
    (∀ (block out : List Nat) (off : Nat),
      remove_entry_from_block block name = some (off, out) →
      (readDirEntry block off).unused = false ∧
      (readDirEntry block off).compare_name name = true ∧
      out = writeBytesAt block off
        (encodeDirEntry ((readDirEntry block off).set_unused)) ∧
      ((readDirEntry block off).set_unused).rec_len
        = (readDirEntry block off).rec_len ∧
      (∀ j, off + 8 + (readDirEntry block off).name.length ≤ j →
        getByte out j = getByte block j)) ∧
    (∀ (iblock fuel pb off : Nat) (out : List Nat),
      iblock < dir.inode.block_count →
      extent_query dir.inode iblock = some pb →
      remove_entry_from_block (read_block s pb) name = some (off, out) →
      dir_remove_entry_go s dir name iblock (fuel+1)
        = (.ok (), write_block s pb out)) ∧
    (∀ fuel iblock,
      (∀ i, iblock ≤ i → i < dir.inode.block_count →
        ∃ pb, extent_query dir.inode i = some pb ∧
          remove_entry_from_block (read_block s pb) name = none) →
      dir_remove_entry_go s dir name iblock fuel = (.error .ENOENT, s)) ∧
    dir_remove_entry s dir name
      = dir_remove_entry_go s dir name 0 dir.inode.block_count := by
  refine ⟨?_, ?_, ?_, rfl⟩
  · intro block out off h
    obtain ⟨h1, h2, h3⟩ := remove_go_spec block name BLOCK_SIZE 0 off out h
    refine ⟨h1, h2, h3, rfl, ?_⟩
    intro j hj
    rw [h3]
    refine getByte_writeBytesAt_hi _ _ _ _ ?_
    rw [encodeDirEntry_length]
    have hn : ((readDirEntry block off).set_unused).name.length
        = (readDirEntry block off).name.length := rfl
    omega
  · intro iblock fuel pb off out hlt hq hr
    simp only [dir_remove_entry_go, if_pos hlt, hq, hr]
  · intro fuel
    induction fuel with
    | zero => intro iblock h; rfl
    | succ f ih =>
      intro iblock h
      simp only [dir_remove_entry_go]
      split
      · rename_i hlt
        obtain ⟨pb, hq, hr⟩ := h iblock le_rfl hlt
        simp only [hq, hr]
        exact ih (iblock + 1) (fun i hi hlt2 => h i (by omega) hlt2)
      · rfl

theorem c5_witness :
    dir_remove_entry stC5 dirRefC5 [97]
      = (.ok (), write_block stC5 100 c5RemRes.2) ∧
    (dir_remove_entry stC5 dirRefC5 [98]).fst = .error .ENOENT ∧
    getByte c5RemRes.2 4092 = getByte blockC5 4092 := by
  have hc := c5_remove_entry_tombstones stC5 dirRefC5 [97]
  have hr : remove_entry_from_block (read_block stC5 100) [97]
      = some (0, c5RemRes.2) := rfl
  refine ⟨?_, ?_, ?_⟩
  · rw [hc.2.2.2]
    exact hc.2.1 0 0 100 0 c5RemRes.2 (by decide) (by decide) hr
  · have hc2 := c5_remove_entry_tombstones stC5 dirRefC5 [98]
    rw [hc2.2.2.2, hc2.2.2.1 dirRefC5.inode.block_count 0 ?_]
    · intro i h0 h1
      have hi : i = 0 := by
        have : dirRefC5.inode.block_count = 1 := rfl
        omega
      subst hi
      exact ⟨100, by decide, by decide⟩
  · have hframe := (hc.1 blockC5 c5RemRes.2 0 hr).2.2.2.2 4092 (by decide)
    exact hframe

/-- C5 counterexample: removing `"a"` from the one-block directory succeeds
and writes the block back with the stored tail checksum still 0, while a
freshly recomputed tail checksum of the written block (the claimed
`uuid ‖ dir_id ‖ generation ‖ block ‖ tail` formula) is nonzero — the code
does not recompute the tail checksum on removal. -/
theorem c5_stale_checksum_on_remove :
    (dir_remove_entry stC5 dirRefC5 [97]).fst = .ok () ∧
    readU32 blockC5out 4092 = 0 ∧
    claimedDirTailCsum sbOne.uuid dirRefC5.id dirRefC5.inode.generation
      blockC5out ≠ 0 := by
  have e1 : ∀ (c : Nat) (l : List Nat), ext4_crc32c c l = crcForce c l :=
    fun c l => (crcForce_eq l c).symm
  refine ⟨by decide, by decide, ?_⟩
  have hSeed : crcForce (crcForce (crcForce EXT4_CRC32_INIT sbOne.uuid)
      (le32 dirRefC5.id)) (le32 dirRefC5.inode.generation) = 3917277535 := by
    decide
  have hTake : crcForce 3917277535 (blockC5out.take (BLOCK_SIZE - 12))
      = 997242195 := by decide
  have hTail : crcForce 997242195 ((blockC5out.drop (BLOCK_SIZE - 12)).take 8)
      = 2085668153 := by decide
  simp only [claimedDirTailCsum, ext4_crc32c_append, e1, hSeed, hTake, hTail]
  decide

theorem inodeCountersPreserved_refl (s : FsState) : inodeCountersPreserved s s :=
  ⟨rfl, fun _ => ⟨rfl, rfl, rfl⟩⟩

theorem inodeCountersPreserved_trans {s s1 s2 : FsState}
    (h1 : inodeCountersPreserved s s1) (h2 : inodeCountersPreserved s1 s2) :
    inodeCountersPreserved s s2 := by
  refine ⟨h2.1.trans h1.1, fun g => ?_⟩
  obtain ⟨a1, b1, c1⟩ := h1.2 g
  obtain ⟨a2, b2, c2⟩ := h2.2 g
  exact ⟨a2.trans a1, b2.trans b1, c2.trans c1⟩

theorem benignEvent_mono {s s1 : FsState} (h : inodeCountersPreserved s s1)
    (e : WriteEvent) : benignEvent s1 e → benignEvent s e := by
  cases e with
  | block id data => exact fun _ => trivial
  | superblock sbv => exact fun hb => hb.trans h.1
  | groupDesc g bgv =>
    intro hb
    obtain ⟨a, b, c⟩ := h.2 g
    exact ⟨hb.1.trans a, hb.2.1.trans b, hb.2.2.trans c⟩
  | inode id ino b => exact fun hb => hb

theorem rootFrame_refl (s : FsState) : rootFrame s s :=
  ⟨inodeCountersPreserved_refl s, [], by simp, by simp⟩

theorem rootFrame_trans {s s1 s2 : FsState} (h1 : rootFrame s s1)
    (h2 : rootFrame s1 s2) : rootFrame s s2 := by
  obtain ⟨hi1, t1, hw1, hb1⟩ := h1
  obtain ⟨hi2, t2, hw2, hb2⟩ := h2
  refine ⟨inodeCountersPreserved_trans hi1 hi2, t1 ++ t2, ?_, ?_⟩
  · rw [hw2, hw1, List.append_assoc]
  · intro e he
    rcases List.mem_append.mp he with h | h
    · exact hb1 e h
    · exact benignEvent_mono hi1 e (hb2 e h)

theorem rootFrame_write_block (s : FsState) (id : Nat) (data : List Nat) :
    rootFrame s (write_block s id data) :=
  ⟨⟨rfl, fun _ => ⟨rfl, rfl, rfl⟩⟩, [WriteEvent.block id data], rfl, by
    intro e he
    simp only [List.mem_singleton] at he
    subst he
    trivial⟩

theorem rootFrame_write_super_block (s : FsState) (sbv : SuperBlock)
    (h : sbv.free_inodes_count = s.sb.free_inodes_count) :
    rootFrame s (write_super_block s sbv) :=
  ⟨⟨h, fun _ => ⟨rfl, rfl, rfl⟩⟩, [WriteEvent.superblock sbv], rfl, by
    intro e he
    simp only [List.mem_singleton] at he
    subst he
    exact h⟩

theorem read_block_group_set (s : FsState) (g : Nat) (bgv : BlockGroupDesc)
    (g' : Nat) :
    read_block_group (write_block_group_with_csum s g bgv) g'
      = read_block_group s g' ∨
    (read_block_group (write_block_group_with_csum s g bgv) g' = bgv ∧ g' = g) := by
  simp only [write_block_group_with_csum]
  by_cases hg : g' = g
  · subst hg
    by_cases hl : g' < s.groups.length
    · right
      refine ⟨?_, rfl⟩
      simp only [read_block_group, List.getD_eq_getElem?_getD]
      rw [List.getElem?_set_eq hl]
      rfl
    · left
      simp only [read_block_group, List.getD_eq_getElem?_getD]
      rw [List.getElem?_eq_none (by simp; omega),
        List.getElem?_eq_none (by omega)]
  · left
    simp only [read_block_group, List.getD_eq_getElem?_getD]
    rw [List.getElem?_set_ne (fun hc => hg hc.symm)]

theorem rootFrame_write_block_group (s : FsState) (g : Nat) (bgv : BlockGroupDesc)
    (h1 : bgv.free_inodes_count = (read_block_group s g).free_inodes_count)
    (h2 : bgv.used_dirs_count = (read_block_group s g).used_dirs_count)
    (h3 : bgv.itable_unused = (read_block_group s g).itable_unused) :
    rootFrame s (write_block_group_with_csum s g bgv) := by
  refine ⟨⟨rfl, fun g' => ?_⟩, [WriteEvent.groupDesc g bgv], rfl, ?_⟩
  · rcases read_block_group_set s g bgv g' with h | ⟨h, hg⟩
    · rw [h]
      exact ⟨rfl, rfl, rfl⟩
    · subst hg
      rw [h]
      exact ⟨h1, h2, h3⟩
  · intro e he
    simp only [List.mem_singleton] at he
    subst he
    exact ⟨h1, h2, h3⟩

theorem rootFrame_write_inode (s : FsState) (ref : InodeRef) (withCsum : Bool)
    (h : ref.id = EXT4_ROOT_INO) :
    rootFrame s (if withCsum then write_inode_with_csum s ref
      else write_inode_without_csum s ref) := by
  cases withCsum <;>
    exact ⟨⟨rfl, fun _ => ⟨rfl, rfl, rfl⟩⟩, [WriteEvent.inode ref.id ref.inode _],
      rfl, by
        intro e he
        simp only [List.mem_singleton] at he
        subst he
        exact h⟩

theorem alloc_block_rootFrame (s : FsState) (ref : InodeRef) :
    rootFrame s (alloc_block s ref).snd := by
  simp only [alloc_block]
  split
  · exact rootFrame_refl s
  · refine rootFrame_trans (rootFrame_write_block s _ _)
      (rootFrame_trans (rootFrame_write_super_block _ _ ?_)
        (rootFrame_write_block_group _ _ _ ?_ ?_ ?_)) <;> rfl

theorem eqoc_rootFrame (s : FsState) (ref : InodeRef) (l c : Nat) :
    rootFrame s (extent_query_or_create s ref l c).snd := by
  simp only [extent_query_or_create]
  split
  · exact rootFrame_refl s
  · split <;> rename_i heq
    · have := alloc_block_rootFrame s ref
      rw [heq] at this
      exact this
    · have hfr := alloc_block_rootFrame s ref
      rw [heq] at hfr
      split
      · exact hfr
      · exact hfr

theorem inode_append_block_id (s : FsState) (ref : InodeRef) :
    (inode_append_block s ref).2.1.id = ref.id := by
  simp only [inode_append_block]
  split <;> rename_i heq
  · rfl
  · rename_i fb ref1 s1
    have hfst : (extent_query_or_create s ref ref.inode.block_count 1).fst
        = .ok (fb, ref1) := by rw [heq]
    exact (extent_qoc_preserves s ref ref.inode.block_count 1 fb ref1 hfst).1

theorem inode_append_block_rootFrame (s : FsState) (ref : InodeRef)
    (h : ref.id = EXT4_ROOT_INO) :
    rootFrame s (inode_append_block s ref).2.2 := by
  simp only [inode_append_block]
  split <;> rename_i heq
  · have hfr := eqoc_rootFrame s ref ref.inode.block_count 1
    rw [heq] at hfr
    exact hfr
  · rename_i fb ref1 s1
    have hfr := eqoc_rootFrame s ref ref.inode.block_count 1
    rw [heq] at hfr
    have hfst : (extent_query_or_create s ref ref.inode.block_count 1).fst
        = .ok (fb, ref1) := by rw [heq]
    have hid := (extent_qoc_preserves s ref ref.inode.block_count 1 fb ref1 hfst).1
    refine rootFrame_trans hfr ?_
    have := rootFrame_write_inode s1
      { ref1 with inode := { ref1.inode with block_count := ref1.inode.block_count + 1 } }
      false (by simpa using hid.trans h)
    simpa using this

theorem insert_new_rootFrame (s : FsState) (dir child : InodeRef)
    (name : List Nat) (fblock : Nat) (block : List Nat) :
    rootFrame s (insert_entry_to_new_block s dir child name fblock block) := by
  simp only [insert_entry_to_new_block]
  exact rootFrame_write_block s _ _

theorem insert_old_rootFrame (s : FsState) (dir child : InodeRef)
    (name : List Nat) (fblock : Nat) (s1 : FsState)
    (h : insert_entry_to_old_block s dir child name fblock = some s1) :
    rootFrame s s1 := by
  simp only [insert_entry_to_old_block] at h
  split at h
  · simp only [Option.some.injEq] at h
    rw [← h]
    exact rootFrame_write_block s _ _
  · simp at h

theorem add_loop_rootFrame (s : FsState) (dir child : InodeRef)
    (name : List Nat) :
    ∀ (fuel iblock : Nat) (s1 : FsState),
      dir_add_entry_loop s dir child name iblock fuel = .ok (some s1) →
      rootFrame s s1 := by
  intro fuel
  induction fuel with
  | zero => intro iblock s1 h; simp [dir_add_entry_loop] at h
  | succ f ih =>
    intro iblock s1 h
    simp only [dir_add_entry_loop] at h
    split at h
    · split at h
      · simp at h
      · split at h <;> rename_i hins
        · simp only [Except.ok.injEq, Option.some.injEq] at h
          rw [← h]
          exact insert_old_rootFrame s dir child name _ _ hins
        · exact ih _ _ h
    · simp at h

theorem dir_add_entry_rootFrame (s : FsState) (dir child : InodeRef)
    (name : List Nat) (h : dir.id = EXT4_ROOT_INO) :
    rootFrame s (dir_add_entry s dir child name).2.2 ∧
    (dir_add_entry s dir child name).2.1.id = dir.id := by
  simp only [dir_add_entry]
  split <;> rename_i heq
  · exact ⟨rootFrame_refl s, rfl⟩
  · exact ⟨add_loop_rootFrame s dir child name _ 0 _ heq, rfl⟩
  · split <;> rename_i heq2
    · rename_i e dir1 s1
      have hfr := inode_append_block_rootFrame s dir h
      rw [heq2] at hfr
      have hid := inode_append_block_id s dir
      rw [heq2] at hid
      exact ⟨hfr, hid⟩
    · rename_i v dir1 s1
      have hfr := inode_append_block_rootFrame s dir h
      rw [heq2] at hfr
      have hid := inode_append_block_id s dir
      rw [heq2] at hid
      refine ⟨rootFrame_trans hfr (insert_new_rootFrame s1 dir1 child name _ _), ?_⟩
      simpa using hid

/-- C10 (amended): `create_root_inode` builds the root with the fixed id
`EXT4_ROOT_INO` and never goes through the inode allocator: the
superblock's free-inodes counter and every group's free-inodes, used-dirs
and itable-unused counters are preserved, and every write it issues is a
raw block write (the root directory's data block and — beyond the original
claim — the block bitmap touched by the data-block allocation), a
superblock or group-descriptor write carrying unchanged inode counters
(the free-blocks counters do change), or a write of the root inode slot
itself; on success the returned inode has id `EXT4_ROOT_INO` and link
count 2. -/
theorem c10_create_root_inode_frame (s : FsState) :
    rootFrame s (create_root_inode s).snd ∧
    ∀ root, (create_root_inode s).fst = .ok root →
      root.id = EXT4_ROOT_INO ∧ root.inode.link_count = 2 := by
  simp only [create_root_inode]
  split <;> rename_i heq1
  · rename_i e s1
    have h1 := dir_add_entry_rootFrame s ⟨EXT4_ROOT_INO,
      { ftype := 2, size := 0, block_count := 0, link_count := 0,
        generation := 0, extents := [] }⟩
      ⟨EXT4_ROOT_INO,
      { ftype := 2, size := 0, block_count := 0, link_count := 0,
        generation := 0, extents := [] }⟩ dotName rfl
    rw [heq1] at h1
    exact ⟨h1.1, by intro root hr; simp at hr⟩
  · rename_i root1 s1
    have h1 := dir_add_entry_rootFrame s ⟨EXT4_ROOT_INO,
      { ftype := 2, size := 0, block_count := 0, link_count := 0,
        generation := 0, extents := [] }⟩
      ⟨EXT4_ROOT_INO,
      { ftype := 2, size := 0, block_count := 0, link_count := 0,
        generation := 0, extents := [] }⟩ dotName rfl
    rw [heq1] at h1
    split <;> rename_i heq2
    · rename_i e s2
      have h2 := dir_add_entry_rootFrame s1 root1 ⟨EXT4_ROOT_INO,
      { ftype := 2, size := 0, block_count := 0, link_count := 0,
        generation := 0, extents := [] }⟩ dotDotName h1.2
      rw [heq2] at h2
      exact ⟨rootFrame_trans h1.1 h2.1, by intro root hr; simp at hr⟩
    · rename_i root2 s2
      have h2 := dir_add_entry_rootFrame s1 root1 ⟨EXT4_ROOT_INO,
      { ftype := 2, size := 0, block_count := 0, link_count := 0,
        generation := 0, extents := [] }⟩ dotDotName h1.2
      rw [heq2] at h2
      have h3 := rootFrame_write_inode s2
        { root2 with inode := { root2.inode with link_count := 2 } } true
        (by simpa using h2.2.trans h1.2)
      refine ⟨rootFrame_trans h1.1 (rootFrame_trans h2.1 (by simpa using h3)), ?_⟩
      intro root hr
      simp only [Except.ok.injEq] at hr
      rw [← hr]
      exact ⟨by simpa using h2.2.trans h1.2, rfl⟩

theorem c10_witness :
    rootFrame stOne (create_root_inode stOne).snd ∧
    rootC10.id = EXT4_ROOT_INO ∧ rootC10.inode.link_count = 2 :=
  ⟨(c10_create_root_inode_frame stOne).1,
   (c10_create_root_inode_frame stOne).2 rootC10 (by decide)⟩

/-- C10 counterexample: on the fresh one-group state, `create_root_inode`
issues — besides the two root data-block writes and the two root inode
writes — a block-bitmap write, a superblock write and a group-descriptor
write (the data-block allocation), and the superblock's free-blocks
counter changes; so the root data block(s) and the root inode slot are not
the only on-disk structures written.  The inode-side state is indeed
untouched. -/
theorem c10_more_than_inode_and_data_written :
    (create_root_inode stOne).snd.writes.map WriteEvent.kind
      = [.blk, .sb, .gd, .ino, .blk, .blk, .ino] ∧
    (create_root_inode stOne).snd.sb.free_blocks_count = 99 ∧
    stOne.sb.free_blocks_count = 100 ∧
    (create_root_inode stOne).snd.sb.free_inodes_count = 10 ∧
    (read_block_group (create_root_inode stOne).snd 0).free_inodes_count = 16 ∧
    (read_block_group (create_root_inode stOne).snd 0).used_dirs_count = 0 := by
  refine ⟨by decide, by decide, by decide, by decide, by decide, by decide⟩

theorem c8_witness :
    (set_checksum iZero sbOne 7).osd2.l_i_checksum_lo
      = claimedInodeCsum sbOne 7 iZero % 65536 ∧
    (set_checksum iZero sbOne 7).i_checksum_hi
      = claimedInodeCsum sbOne 7 iZero / 65536 ∧
    (set_checksum iZero sb128 7).i_checksum_hi = 0 := by
  refine ⟨(c8_inode_checksum_layout sbOne iZero 7).1,
    (c8_inode_checksum_layout sbOne iZero 7).2.1 (by decide),
    (c8_inode_checksum_layout sb128 iZero 7).2.2 (by decide)⟩

end Ext4RS
